import Mathlib

/-!
# PQC facade: identifiers, registry, size accessors, constant-time hooks

A shallow embedding of `public/pqc/pqc.h` and `src/common/ct_check.h`.

* The X-macro lists `PQC_SUPPORTED_SIGS` / `PQC_SUPPORTED_KEMS` and the two
  anonymous enums built from them are embedded from the header.
* The descriptor records `pqc_ctx_t`, `pqc_kem_ctx_t`, `pqc_sig_ctx_t` are
  embedded from the header.
* The bodies of the lookup and accessor functions are only declared in the
  header; they are modelled from the specification and marked so.
* The five hooks of `ct_check.h` are embedded from the header, one branch of
  the model per preprocessor branch.
-/

namespace PQC

/-! ## Algorithm lists (pqc.h, lines 11-62) -/

/-- Names listed by the X-macro `PQC_SUPPORTED_SIGS`, in declaration order. -/
inductive SigName where
  | DILITHIUM2
  | DILITHIUM3
  | DILITHIUM5
  | FALCON512
  | FALCON1024
  | SPHINCSSHAKE256128FSIMPLE
  | SPHINCSSHAKE256128SSIMPLE
  | SPHINCSSHAKE256128FROBUST
  | SPHINCSSHAKE256128SROBUST
  | SPHINCSSHAKE256192FSIMPLE
  | SPHINCSSHAKE256192SSIMPLE
  | SPHINCSSHAKE256192FROBUST
  | SPHINCSSHAKE256192SROBUST
  | SPHINCSSHAKE256256FSIMPLE
  | SPHINCSSHAKE256256SSIMPLE
  | SPHINCSSHAKE256256FROBUST
  | SPHINCSSHAKE256256SROBUST
  | SPHINCSSHA256128FSIMPLE
  | SPHINCSSHA256128SSIMPLE
  | SPHINCSSHA256128FROBUST
  | SPHINCSSHA256128SROBUST
  | SPHINCSSHA256192FSIMPLE
  | SPHINCSSHA256192SSIMPLE
  | SPHINCSSHA256192FROBUST
  | SPHINCSSHA256192SROBUST
  | SPHINCSSHA256256FSIMPLE
  | SPHINCSSHA256256SSIMPLE
  | SPHINCSSHA256256FROBUST
  | SPHINCSSHA256256SROBUST
  deriving DecidableEq, Repr

/-- Names listed by the X-macro `PQC_SUPPORTED_KEMS`, in declaration order. -/
inductive KemName where
  | KYBER512
  | KYBER768
  | KYBER1024
  | HQCRMRS128
  | HQCRMRS192
  | HQCRMRS256
  | MCELIECE348864
  | MCELIECE460896
  | MCELIECE6688128
  | MCELIECE6960119
  | MCELIECE8192128
  | MCELIECE348864F
  | MCELIECE460896F
  | MCELIECE6688128F
  | MCELIECE6960119F
  | MCELIECE8192128F
  deriving DecidableEq, Repr

/-- The expansion list of `PQC_SUPPORTED_SIGS(_)`: one application of `_` per
line of the macro, top to bottom. -/
def PQC_SUPPORTED_SIGS : List SigName :=
  [ .DILITHIUM2, .DILITHIUM3, .DILITHIUM5, .FALCON512, .FALCON1024,
    .SPHINCSSHAKE256128FSIMPLE, .SPHINCSSHAKE256128SSIMPLE,
    .SPHINCSSHAKE256128FROBUST, .SPHINCSSHAKE256128SROBUST,
    .SPHINCSSHAKE256192FSIMPLE, .SPHINCSSHAKE256192SSIMPLE,
    .SPHINCSSHAKE256192FROBUST, .SPHINCSSHAKE256192SROBUST,
    .SPHINCSSHAKE256256FSIMPLE, .SPHINCSSHAKE256256SSIMPLE,
    .SPHINCSSHAKE256256FROBUST, .SPHINCSSHAKE256256SROBUST,
    .SPHINCSSHA256128FSIMPLE, .SPHINCSSHA256128SSIMPLE,
    .SPHINCSSHA256128FROBUST, .SPHINCSSHA256128SROBUST,
    .SPHINCSSHA256192FSIMPLE, .SPHINCSSHA256192SSIMPLE,
    .SPHINCSSHA256192FROBUST, .SPHINCSSHA256192SROBUST,
    .SPHINCSSHA256256FSIMPLE, .SPHINCSSHA256256SSIMPLE,
    .SPHINCSSHA256256FROBUST, .SPHINCSSHA256256SROBUST ]

/-- The expansion list of `PQC_SUPPORTED_KEMS(_)`. -/
def PQC_SUPPORTED_KEMS : List KemName :=
  [ .KYBER512, .KYBER768, .KYBER1024, .HQCRMRS128, .HQCRMRS192, .HQCRMRS256,
    .MCELIECE348864, .MCELIECE460896, .MCELIECE6688128, .MCELIECE6960119,
    .MCELIECE8192128, .MCELIECE348864F, .MCELIECE460896F, .MCELIECE6688128F,
    .MCELIECE6960119F, .MCELIECE8192128F ]

/-! ## The enums (pqc.h, lines 64-72)

`enum { PQC_SUPPORTED_SIGS(DEFNUM_SIG) PQC_ALG_SIG_MAX };` expands to an enum
whose enumerators are `PQC_ALG_SIG_<N>` for each listed `N`, followed by
`PQC_ALG_SIG_MAX`.  No enumerator has an initialiser, so C gives the first
one the value 0 and every other one its predecessor's value plus one. -/

/-- Values C assigns to the enumerators of an initialiser-free enum whose
first enumerator gets `start`. -/
def enumValues {α : Type} : Nat → List α → List (α × Nat)
  | _, [] => []
  | start, a :: rest => (a, start) :: enumValues (start + 1) rest

/-- Value C assigns to an enumerator written after all of `l` when the first
enumerator gets `start`. -/
def enumAfter {α : Type} : Nat → List α → Nat
  | start, [] => start
  | start, _ :: rest => enumAfter (start + 1) rest

/-- Value of enumerator `a` in a table of enumerator values (0 when `a` is
not an enumerator of the table). -/
def enumValueOf {α : Type} [DecidableEq α] (a : α) : List (α × Nat) → Nat
  | [] => 0
  | (b, v) :: rest => if a = b then v else enumValueOf a rest

/-- The enumerator `PQC_ALG_SIG_<n>`. -/
def PQC_ALG_SIG (n : SigName) : Nat :=
  enumValueOf n (enumValues 0 PQC_SUPPORTED_SIGS)

/-- The sentinel `PQC_ALG_SIG_MAX`. -/
def PQC_ALG_SIG_MAX : Nat := enumAfter 0 PQC_SUPPORTED_SIGS

/-- The enumerator `PQC_ALG_KEM_<n>`. -/
def PQC_ALG_KEM (n : KemName) : Nat :=
  enumValueOf n (enumValues 0 PQC_SUPPORTED_KEMS)

/-- The sentinel `PQC_ALG_KEM_MAX`. -/
def PQC_ALG_KEM_MAX : Nat := enumAfter 0 PQC_SUPPORTED_KEMS

/-! ## Descriptor records (pqc.h, lines 74-99) -/

/-- Contents of a byte buffer passed as `uint8_t *`. -/
abbrev Bytes := List Nat

/-- The record `pqc_ctx_t`.  `keygen` writes the two key buffers and returns
an `int`; as a function it maps the entropy it consumes to the status and the
contents written to its first and second buffer argument. -/
structure pqc_ctx_t where
  alg_id : Nat
  alg_name : String
  prv_key_bsz : Nat
  pub_key_bsz : Nat
  is_kem : Bool
  keygen : Bytes → Int × Bytes × Bytes

/-- The record `pqc_kem_ctx_t`.  `encapsulate` maps entropy and `pk` to the
status and the written `ct`, `ss`; `decapsulate` maps `ct`, `sk` to the status
and the written `ss`. -/
structure pqc_kem_ctx_t where
  p : pqc_ctx_t
  ciphertext_bsz : Nat
  secret_bsz : Nat
  encapsulate : Bytes → Bytes → Int × Bytes × Bytes
  decapsulate : Bytes → Bytes → Int × Bytes

/-- The record `pqc_sig_ctx_t`.  `sign` maps entropy, `m`, `mlen`, `sk` to the
status, the written `sig` and `*siglen`; `verify` maps `sig`, `siglen`, `m`,
`mlen`, `pk` to the status. -/
structure pqc_sig_ctx_t where
  p : pqc_ctx_t
  sign_bsz : Nat
  sign : Bytes → Bytes → Nat → Bytes → Int × Bytes × Nat
  verify : Bytes → Nat → Bytes → Nat → Bytes → Int

/-- What a non-null `const pqc_ctx_t *` of the interface points into: the `p`
member that begins either a `pqc_kem_ctx_t` or a `pqc_sig_ctx_t`. -/
inductive Descriptor where
  | kem (k : pqc_kem_ctx_t)
  | sig (s : pqc_sig_ctx_t)

/-- The `pqc_ctx_t` a descriptor pointer designates. -/
def Descriptor.base : Descriptor → pqc_ctx_t
  | .kem k => k.p
  | .sig s => s.p

/-! ## Registry (declared in pqc.h, lines 128-129) -/

/-- Per-algorithm constants and backend functions that a KEM table entry is
initialised with; the header does not give them, so they are a parameter. -/
structure kem_impl where
  alg_name : String
  prv_key_bsz : Nat
  pub_key_bsz : Nat
  ciphertext_bsz : Nat
  secret_bsz : Nat
  keygen : Bytes → Int × Bytes × Bytes
  encapsulate : Bytes → Bytes → Int × Bytes × Bytes
  decapsulate : Bytes → Bytes → Int × Bytes

/-- Per-algorithm constants and backend functions that a signature table entry
is initialised with; the header does not give them, so they are a parameter. -/
structure sig_impl where
  alg_name : String
  prv_key_bsz : Nat
  pub_key_bsz : Nat
  sign_bsz : Nat
  keygen : Bytes → Int × Bytes × Bytes
  sign : Bytes → Bytes → Nat → Bytes → Int × Bytes × Nat
  verify : Bytes → Nat → Bytes → Nat → Bytes → Int

/-- Modelled from the spec: the KEM table entry of one algorithm (the table
initialiser is missing from the sources).  Its `alg_id` is the enumerator
`PQC_ALG_KEM_<n>` and it is flagged as a KEM. -/
def kem_entry (impl : KemName → kem_impl) (n : KemName) : pqc_kem_ctx_t :=
  { p := { alg_id := PQC_ALG_KEM n
           alg_name := (impl n).alg_name
           prv_key_bsz := (impl n).prv_key_bsz
           pub_key_bsz := (impl n).pub_key_bsz
           is_kem := true
           keygen := (impl n).keygen }
    ciphertext_bsz := (impl n).ciphertext_bsz
    secret_bsz := (impl n).secret_bsz
    encapsulate := (impl n).encapsulate
    decapsulate := (impl n).decapsulate }

/-- Modelled from the spec: the signature table entry of one algorithm (the
table initialiser is missing from the sources). -/
def sig_entry (impl : SigName → sig_impl) (n : SigName) : pqc_sig_ctx_t :=
  { p := { alg_id := PQC_ALG_SIG n
           alg_name := (impl n).alg_name
           prv_key_bsz := (impl n).prv_key_bsz
           pub_key_bsz := (impl n).pub_key_bsz
           is_kem := false
           keygen := (impl n).keygen }
    sign_bsz := (impl n).sign_bsz
    sign := (impl n).sign
    verify := (impl n).verify }

/-- Modelled from the spec: the fixed KEM table (missing from the sources),
one entry per supported KEM in the order of `PQC_SUPPORTED_KEMS`. -/
def kems (impl : KemName → kem_impl) : List pqc_kem_ctx_t :=
  PQC_SUPPORTED_KEMS.map (kem_entry impl)

/-- Modelled from the spec: the fixed signature table (missing from the
sources), one entry per supported scheme in the order of
`PQC_SUPPORTED_SIGS`. -/
def sigs (impl : SigName → sig_impl) : List pqc_sig_ctx_t :=
  PQC_SUPPORTED_SIGS.map (sig_entry impl)

/-- Modelled from the spec: body of `pqc_kem_alg_by_id` (only declared in
pqc.h).  An `id` below the family count selects the table entry at that
offset; any other `id` is "not found" (`none`, the null pointer). -/
def pqc_kem_alg_by_id (impl : KemName → kem_impl) (id : Nat) : Option Descriptor :=
  if id < PQC_ALG_KEM_MAX then ((kems impl)[id]?).map Descriptor.kem else none

/-- Modelled from the spec: body of `pqc_sig_alg_by_id` (only declared in
pqc.h), as `pqc_kem_alg_by_id` for the signature table. -/
def pqc_sig_alg_by_id (impl : SigName → sig_impl) (id : Nat) : Option Descriptor :=
  if id < PQC_ALG_SIG_MAX then ((sigs impl)[id]?).map Descriptor.sig else none

/-! ## Size accessors (declared in pqc.h, lines 131-135)

Each accessor returns a plain `uint32_t`.  The two key-size accessors read
fields of `pqc_ctx_t` itself and so apply to every descriptor.  The three
family-specific accessors read a field of the record that encloses the
`pqc_ctx_t` they are handed; they are modelled on the records that have the
field.  What a call on a pointer into the other family's record yields is
given neither by the header nor, for C, by the spec, and is not modelled. -/

/-- Modelled from the spec: body of `pqc_public_key_bsz` (only declared in
pqc.h), the projection of `pub_key_bsz`. -/
def pqc_public_key_bsz (d : Descriptor) : Nat := d.base.pub_key_bsz

/-- Modelled from the spec: body of `pqc_private_key_bsz` (only declared in
pqc.h), the projection of `prv_key_bsz`. -/
def pqc_private_key_bsz (d : Descriptor) : Nat := d.base.prv_key_bsz

/-- Modelled from the spec: body of `pqc_ciphertext_bsz` (only declared in
pqc.h) on a KEM descriptor, the projection of `ciphertext_bsz`. -/
def pqc_ciphertext_bsz (k : pqc_kem_ctx_t) : Nat := k.ciphertext_bsz

/-- Modelled from the spec: body of `pqc_shared_secret_bsz` (only declared in
pqc.h) on a KEM descriptor, the projection of `secret_bsz`. -/
def pqc_shared_secret_bsz (k : pqc_kem_ctx_t) : Nat := k.secret_bsz

/-- Modelled from the spec: body of `pqc_signature_bsz` (only declared in
pqc.h) on a signature descriptor, the projection of `sign_bsz`. -/
def pqc_signature_bsz (s : pqc_sig_ctx_t) : Nat := s.sign_bsz

/-! ## Constant-time hooks (src/common/ct_check.h) -/

/-- Preprocessor facts that select the branches of `ct_check.h`. -/
structure BuildConfig where
  /-- Whether `defined(PQC_USE_CTSANITIZER)`. -/
  PQC_USE_CTSANITIZER : Bool
  /-- Whether `defined(__clang__)`. -/
  clang : Bool
  /-- Whether `defined(__has_feature)`. -/
  has_feature : Bool
  /-- Whether `__has_feature(memory_sanitizer)`. -/
  memory_sanitizer : Bool
  /-- Whether `defined(PQC_USE_CTGRIND)`. -/
  PQC_USE_CTGRIND : Bool
  deriving DecidableEq, Repr

/-- The condition of the outer `#if` of every hook:
`defined(PQC_USE_CTSANITIZER) && defined(__clang__) && defined(__has_feature)`. -/
def BuildConfig.sanitizer_branch (c : BuildConfig) : Bool :=
  c.PQC_USE_CTSANITIZER && c.clang && c.has_feature

/-- The library and analysis-tool entry points the hooks call, as
transformers of a program state `σ` (memory, shadow state and output streams
included).  They belong to MemorySanitizer, Valgrind and libc, so they are a
parameter. -/
structure Externals (σ : Type) where
  msan_allocated_memory : Nat → Nat → σ → σ
  msan_unpoison : Nat → Nat → σ → σ
  msan_set_expect_umr : Int → σ → σ
  msan_dump_shadow : Nat → Nat → σ → σ
  VALGRIND_MAKE_MEM_UNDEFINED : Nat → Nat → σ → σ
  VALGRIND_MAKE_MEM_DEFINED : Nat → Nat → σ → σ
  VALGRIND_GET_VBITS : Nat → Nat → Nat → σ → Nat × σ
  malloc : Nat → σ → Nat × σ
  free : Nat → σ → σ
  load_u8 : Nat → σ → Nat
  fprintf_stderr : String → σ → σ

/-- The function `ct_poison(p, sz)`. -/
def ct_poison {σ : Type} (c : BuildConfig) (x : Externals σ) (p sz : Nat) (s : σ) : σ :=
  if c.sanitizer_branch then
    if c.memory_sanitizer then x.msan_allocated_memory p sz s else s
  else if c.PQC_USE_CTGRIND then x.VALGRIND_MAKE_MEM_UNDEFINED p sz s
  else s

/-- The function `ct_purify(p, sz)`. -/
def ct_purify {σ : Type} (c : BuildConfig) (x : Externals σ) (p sz : Nat) (s : σ) : σ :=
  if c.sanitizer_branch then
    if c.memory_sanitizer then x.msan_unpoison p sz s else s
  else if c.PQC_USE_CTGRIND then x.VALGRIND_MAKE_MEM_DEFINED p sz s
  else s

/-- The function `ct_expect_uum()`. -/
def ct_expect_uum {σ : Type} (c : BuildConfig) (x : Externals σ) (s : σ) : σ :=
  if c.sanitizer_branch then
    if c.memory_sanitizer then x.msan_set_expect_umr 1 s else s
  else s

/-- The function `ct_require_uum()`. -/
def ct_require_uum {σ : Type} (c : BuildConfig) (x : Externals σ) (s : σ) : σ :=
  if c.sanitizer_branch then
    if c.memory_sanitizer then x.msan_set_expect_umr 0 s else s
  else s

/-- One uppercase hexadecimal digit. -/
def hexDigit (n : Nat) : Char :=
  if n < 10 then Char.ofNat (48 + n) else Char.ofNat (55 + n)

/-- Rendering of a `uint8_t` by the conversion `%02X`. -/
def fmt_02X (b : Nat) : String :=
  String.mk [hexDigit (b % 256 / 16), hexDigit (b % 16)]

/-- The loop `for (r=0; r<sz; r++) fprintf(stderr, "%02X%c", b[r], ...)` of
`ct_print_shadow`; both arms of `(r%8)?' ':' '` are a blank. -/
def print_vbits {σ : Type} (x : Externals σ) (b sz : Nat) (s : σ) : σ :=
  (List.range sz).foldl
    (fun st r => x.fprintf_stderr (fmt_02X (x.load_u8 (b + r) st) ++ " ") st) s

/-- The `PQC_USE_CTGRIND` branch of `ct_print_shadow(p, sz)`. -/
def ct_print_shadow_ctgrind {σ : Type} (x : Externals σ) (p sz : Nat) (s : σ) : σ :=
  let (b, s1) := x.malloc sz s
  let (r, s2) := x.VALGRIND_GET_VBITS p b sz s1
  if r ≠ 1 then
    let why := if r = 0 ∨ r = 2 then "INTERNAL" else "NOT ADDRESABLE"
    x.free b (x.fprintf_stderr ("Can\x27t get shadow memory [" ++ why ++ "]\n") s2)
  else
    x.free b (x.fprintf_stderr "\n" (print_vbits x b sz s2))

/-- The function `ct_print_shadow(p, sz)`. -/
def ct_print_shadow {σ : Type} (c : BuildConfig) (x : Externals σ) (p sz : Nat) (s : σ) : σ :=
  if c.sanitizer_branch then
    if c.memory_sanitizer then x.msan_dump_shadow p sz s else s
  else if c.PQC_USE_CTGRIND then ct_print_shadow_ctgrind x p sz s
  else s

/-- A build in which no analysis tool is configured: the MemorySanitizer
branch is not compiled in and `PQC_USE_CTGRIND` is not defined. -/
def BuildConfig.no_tool (c : BuildConfig) : Prop :=
  (c.sanitizer_branch && c.memory_sanitizer) = false ∧ c.PQC_USE_CTGRIND = false

instance (c : BuildConfig) : Decidable c.no_tool := by
  unfold BuildConfig.no_tool; infer_instance

/-- A call made to an external entry point, for recording runs. -/
inductive ExtCall where
  | msan_allocated_memory (p sz : Nat)
  | msan_unpoison (p sz : Nat)
  | msan_set_expect_umr (v : Int)
  | msan_dump_shadow (p sz : Nat)
  | make_mem_undefined (p sz : Nat)
  | make_mem_defined (p sz : Nat)
  | get_vbits (p b sz : Nat)
  | malloc (sz : Nat)
  | free (b : Nat)
  | fprintf_stderr (text : String)
  deriving DecidableEq, Repr

/-- Externals that only record each call, newest first: the program state is
the log of calls made so far.  `VALGRIND_GET_VBITS` reports success, `malloc`
returns address 4096 and every byte read is `0xA5`. -/
def recording : Externals (List ExtCall) where
  msan_allocated_memory p sz log := .msan_allocated_memory p sz :: log
  msan_unpoison p sz log := .msan_unpoison p sz :: log
  msan_set_expect_umr v log := .msan_set_expect_umr v :: log
  msan_dump_shadow p sz log := .msan_dump_shadow p sz :: log
  VALGRIND_MAKE_MEM_UNDEFINED p sz log := .make_mem_undefined p sz :: log
  VALGRIND_MAKE_MEM_DEFINED p sz log := .make_mem_defined p sz :: log
  VALGRIND_GET_VBITS p b sz log := (1, .get_vbits p b sz :: log)
  malloc sz log := (4096, .malloc sz :: log)
  free b log := .free b :: log
  load_u8 _ _ := 165
  fprintf_stderr text log := .fprintf_stderr text :: log

/-- The build with no macro defined. -/
def plain_build : BuildConfig :=
  { PQC_USE_CTSANITIZER := false, clang := false, has_feature := false,
    memory_sanitizer := false, PQC_USE_CTGRIND := false }

/-- The build with only `PQC_USE_CTGRIND` defined. -/
def ctgrind_build : BuildConfig :=
  { plain_build with PQC_USE_CTGRIND := true }

/-! ## Sample table contents -/

/-- Sample KEM table contents: every entry has the sizes of the spec's KEM
scenario (public key 800, private key 1632, ciphertext 768, secret 32) and
backends that write nothing and report status 0. -/
def sample_kem_impl : KemName → kem_impl := fun _ =>
  { alg_name := "kem"
    prv_key_bsz := 1632
    pub_key_bsz := 800
    ciphertext_bsz := 768
    secret_bsz := 32
    keygen := fun _ => (0, [], [])
    encapsulate := fun _ _ => (0, [], [])
    decapsulate := fun _ _ => (0, []) }

/-- Sample signature table contents: every entry has the signature bound of
the spec's signature scenario (2420) and a `verify` that reports status 0 for
the empty signature and -1 for any other. -/
def sample_sig_impl : SigName → sig_impl := fun _ =>
  { alg_name := "sig"
    prv_key_bsz := 2528
    pub_key_bsz := 1312
    sign_bsz := 2420
    keygen := fun _ => (0, [], [])
    sign := fun _ _ _ _ => (0, [], 0)
    verify := fun sig _ _ _ _ => if sig = [] then 0 else -1 }

/-! ## Identifiers (pqc.h enums) -/

theorem sig_name_at_id (n : SigName) : PQC_SUPPORTED_SIGS[PQC_ALG_SIG n]? = some n := by
  cases n <;> rfl

theorem kem_name_at_id (n : KemName) : PQC_SUPPORTED_KEMS[PQC_ALG_KEM n]? = some n := by
  cases n <;> rfl

theorem PQC_ALG_SIG_injective (a b : SigName) (h : PQC_ALG_SIG a = PQC_ALG_SIG b) : a = b := by
  have ha := sig_name_at_id a
  rw [h, sig_name_at_id b] at ha
  exact (Option.some.inj ha).symm

theorem PQC_ALG_KEM_injective (a b : KemName) (h : PQC_ALG_KEM a = PQC_ALG_KEM b) : a = b := by
  have ha := kem_name_at_id a
  rw [h, kem_name_at_id b] at ha
  exact (Option.some.inj ha).symm

theorem kem_lookup_eq (impl : KemName → kem_impl) (id : Nat) :
    pqc_kem_alg_by_id impl id
      = (PQC_SUPPORTED_KEMS[id]?).map (fun n => Descriptor.kem (kem_entry impl n)) := by
  unfold pqc_kem_alg_by_id kems
  by_cases h : id < PQC_ALG_KEM_MAX
  · simp [h, List.getElem?_map, Option.map_map, Function.comp_def]
  · have hlen : PQC_SUPPORTED_KEMS.length ≤ id := Nat.le_of_not_lt h
    simp [h, List.getElem?_eq_none hlen]

theorem sig_lookup_eq (impl : SigName → sig_impl) (id : Nat) :
    pqc_sig_alg_by_id impl id
      = (PQC_SUPPORTED_SIGS[id]?).map (fun n => Descriptor.sig (sig_entry impl n)) := by
  unfold pqc_sig_alg_by_id sigs
  by_cases h : id < PQC_ALG_SIG_MAX
  · simp [h, List.getElem?_map, Option.map_map, Function.comp_def]
  · have hlen : PQC_SUPPORTED_SIGS.length ≤ id := Nat.le_of_not_lt h
    simp [h, List.getElem?_eq_none hlen]

theorem kem_name_of_index (id : Nat) (n : KemName) (h : PQC_SUPPORTED_KEMS[id]? = some n) :
    PQC_ALG_KEM n = id := by
  have hlt : id < 16 := by
    have := (List.getElem?_eq_some.mp h).1
    simpa [PQC_SUPPORTED_KEMS] using this
  interval_cases id <;> simp [PQC_SUPPORTED_KEMS] at h <;> subst h <;> rfl

theorem sig_name_of_index (id : Nat) (n : SigName) (h : PQC_SUPPORTED_SIGS[id]? = some n) :
    PQC_ALG_SIG n = id := by
  have hlt : id < 29 := by
    have := (List.getElem?_eq_some.mp h).1
    simpa [PQC_SUPPORTED_SIGS] using this
  interval_cases id <;> simp [PQC_SUPPORTED_SIGS] at h <;> subst h <;> rfl

/-! ## Hooks in a Valgrind build -/

theorem ct_poison_ctgrind_marks :
    ct_poison ctgrind_build recording 64 32 [] = [.make_mem_undefined 64 32] := rfl

theorem ct_purify_ctgrind_marks :
    ct_purify ctgrind_build recording 64 32 [] = [.make_mem_defined 64 32] := rfl

theorem ct_print_shadow_ctgrind_prints :
    ct_print_shadow ctgrind_build recording 10 2 []
      = [.free 4096, .fprintf_stderr "\n", .fprintf_stderr "A5 ", .fprintf_stderr "A5 ",
          .get_vbits 10 4096 2, .malloc 2] := by
  decide

/-! ## Claims -/

/-- C3: registry lookup is bounds-checked.  For each family the lookup returns
a descriptor of that family for every id below the family count, in
particular for 0 and count - 1, and returns "not found" for every id at or
above the count, in particular for count and count + 1. -/
theorem registry_lookup_bounds_checked
    (kimpl : KemName → kem_impl) (simpl : SigName → sig_impl) :
    (∀ id, id < PQC_ALG_KEM_MAX → ∃ k, pqc_kem_alg_by_id kimpl id = some (.kem k)) ∧
    (∀ id, PQC_ALG_KEM_MAX ≤ id → pqc_kem_alg_by_id kimpl id = none) ∧
    (∀ id, id < PQC_ALG_SIG_MAX → ∃ s, pqc_sig_alg_by_id simpl id = some (.sig s)) ∧
    (∀ id, PQC_ALG_SIG_MAX ≤ id → pqc_sig_alg_by_id simpl id = none) ∧
    ((pqc_kem_alg_by_id kimpl 0).isSome = true ∧
      (pqc_kem_alg_by_id kimpl (PQC_ALG_KEM_MAX - 1)).isSome = true ∧
      pqc_kem_alg_by_id kimpl PQC_ALG_KEM_MAX = none ∧
      pqc_kem_alg_by_id kimpl (PQC_ALG_KEM_MAX + 1) = none) ∧
    ((pqc_sig_alg_by_id simpl 0).isSome = true ∧
      (pqc_sig_alg_by_id simpl (PQC_ALG_SIG_MAX - 1)).isSome = true ∧
      pqc_sig_alg_by_id simpl PQC_ALG_SIG_MAX = none ∧
      pqc_sig_alg_by_id simpl (PQC_ALG_SIG_MAX + 1) = none) := by
  have hk : ∀ id, id < PQC_ALG_KEM_MAX →
      ∃ k, pqc_kem_alg_by_id kimpl id = some (.kem k) := by
    intro id h
    have hlen : id < PQC_SUPPORTED_KEMS.length := h
    exact ⟨kem_entry kimpl PQC_SUPPORTED_KEMS[id], by
      rw [kem_lookup_eq, List.getElem?_eq_getElem hlen]; rfl⟩
  have hk0 : ∀ id, PQC_ALG_KEM_MAX ≤ id → pqc_kem_alg_by_id kimpl id = none := by
    intro id h
    unfold pqc_kem_alg_by_id
    rw [if_neg (Nat.not_lt.mpr h)]
  have hs : ∀ id, id < PQC_ALG_SIG_MAX →
      ∃ s, pqc_sig_alg_by_id simpl id = some (.sig s) := by
    intro id h
    have hlen : id < PQC_SUPPORTED_SIGS.length := h
    exact ⟨sig_entry simpl PQC_SUPPORTED_SIGS[id], by
      rw [sig_lookup_eq, List.getElem?_eq_getElem hlen]; rfl⟩
  have hs0 : ∀ id, PQC_ALG_SIG_MAX ≤ id → pqc_sig_alg_by_id simpl id = none := by
    intro id h
    unfold pqc_sig_alg_by_id
    rw [if_neg (Nat.not_lt.mpr h)]
  refine ⟨hk, hk0, hs, hs0, ⟨?_, ?_, hk0 _ (Nat.le_refl _), hk0 _ (Nat.le_succ _)⟩,
    ⟨?_, ?_, hs0 _ (Nat.le_refl _), hs0 _ (Nat.le_succ _)⟩⟩
  · obtain ⟨k, e⟩ := hk 0 (by decide)
    rw [e]; rfl
  · obtain ⟨k, e⟩ := hk (PQC_ALG_KEM_MAX - 1) (by decide)
    rw [e]; rfl
  · obtain ⟨k, e⟩ := hs 0 (by decide)
    rw [e]; rfl
  · obtain ⟨k, e⟩ := hs (PQC_ALG_SIG_MAX - 1) (by decide)
    rw [e]; rfl

/-- Witness for C3 on the sample tables: ids 15 and 28 are found, ids 16 and
29 are not. -/
theorem registry_lookup_bounds_checked_witness :
    (∃ k, pqc_kem_alg_by_id sample_kem_impl 15 = some (.kem k)) ∧
    pqc_kem_alg_by_id sample_kem_impl 16 = none ∧
    (∃ s, pqc_sig_alg_by_id sample_sig_impl 28 = some (.sig s)) ∧
    pqc_sig_alg_by_id sample_sig_impl 29 = none :=
  have h := registry_lookup_bounds_checked sample_kem_impl sample_sig_impl
  ⟨h.1 15 (by decide), h.2.1 16 (by decide), h.2.2.1 28 (by decide),
    h.2.2.2.1 29 (by decide)⟩

/-- C4: algorithm identifiers are dense per family.  The KEM enumerators are
pairwise distinct and are exactly 0..15 in declaration order (KYBER512 = 0,
MCELIECE8192128F = 15) with PQC_ALG_KEM_MAX = 16; the signature enumerators
are pairwise distinct and are exactly 0..28 (DILITHIUM2 = 0,
SPHINCSSHA256256SROBUST = 28) with PQC_ALG_SIG_MAX = 29; and the descriptor
that lookup returns for an id has alg_id equal to that id. -/
theorem identifiers_dense_per_family
    (kimpl : KemName → kem_impl) (simpl : SigName → sig_impl) :
    (PQC_SUPPORTED_KEMS.map PQC_ALG_KEM = List.range 16 ∧
      (∀ n, n ∈ PQC_SUPPORTED_KEMS) ∧
      (∀ a b, PQC_ALG_KEM a = PQC_ALG_KEM b → a = b) ∧
      PQC_ALG_KEM .KYBER512 = 0 ∧ PQC_ALG_KEM .MCELIECE8192128F = 15 ∧
      PQC_ALG_KEM_MAX = 16) ∧
    (PQC_SUPPORTED_SIGS.map PQC_ALG_SIG = List.range 29 ∧
      (∀ n, n ∈ PQC_SUPPORTED_SIGS) ∧
      (∀ a b, PQC_ALG_SIG a = PQC_ALG_SIG b → a = b) ∧
      PQC_ALG_SIG .DILITHIUM2 = 0 ∧ PQC_ALG_SIG .SPHINCSSHA256256SROBUST = 28 ∧
      PQC_ALG_SIG_MAX = 29) ∧
    (∀ id d, pqc_kem_alg_by_id kimpl id = some d → d.base.alg_id = id) ∧
    (∀ id d, pqc_sig_alg_by_id simpl id = some d → d.base.alg_id = id) := by
  refine ⟨⟨by decide, ?_, PQC_ALG_KEM_injective, rfl, rfl, rfl⟩,
    ⟨by decide, ?_, PQC_ALG_SIG_injective, rfl, rfl, rfl⟩, ?_, ?_⟩
  · intro n
    exact List.getElem?_mem (kem_name_at_id n)
  · intro n
    exact List.getElem?_mem (sig_name_at_id n)
  · intro id d h
    rw [kem_lookup_eq] at h
    obtain ⟨n, hn, rfl⟩ := Option.map_eq_some'.mp h
    exact kem_name_of_index id n hn
  · intro id d h
    rw [sig_lookup_eq] at h
    obtain ⟨n, hn, rfl⟩ := Option.map_eq_some'.mp h
    exact sig_name_of_index id n hn

/-- Witness for C4 on the sample tables: the descriptors found at ids 7 and 20
carry alg_id 7 and 20. -/
theorem identifiers_dense_per_family_witness :
    (∀ d, pqc_kem_alg_by_id sample_kem_impl 7 = some d → d.base.alg_id = 7) ∧
    (∀ d, pqc_sig_alg_by_id sample_sig_impl 20 = some d → d.base.alg_id = 20) :=
  have h := identifiers_dense_per_family sample_kem_impl sample_sig_impl
  ⟨h.2.2.1 7, h.2.2.2 20⟩

/-- C5: size accessors are pure projections of the descriptor.  The public
and private key sizes are the fields pub_key_bsz and prv_key_bsz of any
descriptor; on a KEM descriptor the ciphertext and shared-secret sizes are its
fields ciphertext_bsz and secret_bsz; on a signature descriptor the signature
size is its field sign_bsz.  Each accessor is a function of the descriptor
alone. -/
theorem size_accessors_are_projections :
    (∀ d : Descriptor, pqc_public_key_bsz d = d.base.pub_key_bsz ∧
      pqc_private_key_bsz d = d.base.prv_key_bsz) ∧
    (∀ k : pqc_kem_ctx_t, pqc_public_key_bsz (.kem k) = k.p.pub_key_bsz ∧
      pqc_private_key_bsz (.kem k) = k.p.prv_key_bsz ∧
      pqc_ciphertext_bsz k = k.ciphertext_bsz ∧
      pqc_shared_secret_bsz k = k.secret_bsz) ∧
    (∀ s : pqc_sig_ctx_t, pqc_public_key_bsz (.sig s) = s.p.pub_key_bsz ∧
      pqc_private_key_bsz (.sig s) = s.p.prv_key_bsz ∧
      pqc_signature_bsz s = s.sign_bsz) :=
  ⟨fun _ => ⟨rfl, rfl⟩, fun _ => ⟨rfl, rfl, rfl, rfl⟩, fun _ => ⟨rfl, rfl, rfl⟩⟩

/-- C8: in a build where neither the MemorySanitizer branch nor
PQC_USE_CTGRIND is configured, each of ct_poison, ct_purify, ct_expect_uum,
ct_require_uum and ct_print_shadow returns with the program state unchanged,
for every region and length, whatever the external entry points would do:
none of them is called, so memory is untouched and nothing is printed. -/
theorem ct_hooks_noop_without_tool {σ : Type} (c : BuildConfig) (x : Externals σ)
    (p sz : Nat) (s : σ) (h : c.no_tool) :
    ct_poison c x p sz s = s ∧ ct_purify c x p sz s = s ∧
    ct_expect_uum c x s = s ∧ ct_require_uum c x s = s ∧
    ct_print_shadow c x p sz s = s := by
  obtain ⟨hs, hg⟩ := h
  unfold ct_poison ct_purify ct_expect_uum ct_require_uum ct_print_shadow
  cases hb : c.sanitizer_branch <;> cases hm : c.memory_sanitizer <;>
    simp_all

/-- Witness for C8: in the build with no macro defined, the five hooks leave
an empty call log empty. -/
theorem ct_hooks_noop_without_tool_witness :
    plain_build.no_tool ∧
    ct_poison plain_build recording 64 32 [] = [] ∧
    ct_purify plain_build recording 64 32 [] = [] ∧
    ct_expect_uum plain_build recording [] = [] ∧
    ct_require_uum plain_build recording [] = [] ∧
    ct_print_shadow plain_build recording 64 32 [] = [] :=
  ⟨by decide, ct_hooks_noop_without_tool plain_build recording 64 32 [] (by decide)⟩

end PQC
